import Mathlib

/-!
# agola: object reference resolver, secret API handlers, web bundle handler

A shallow embedding of

* `internal/services/configstore/action/action.go` (`ActionHandler`, `NewActionHandler`,
  `ActionHandler.ResolveObjectID`),
* `internal/services/gateway/api/secret.go` (`createSecretResponse`, `SecretsHandler.do`,
  `CreateSecretHandler.do`, `UpdateSecretHandler.do`),
* `internal/services/gateway/handlers/webbundle.go` (`NewWebBundleHandlerFunc`).

Conventions of the embedding.

* A Go `error` is a value of `Error`; the nil error is `none : Option Error`.
* A Go pointer result that the code compares with nil is an `Option`; nil is `none`.
* Collaborators whose code is outside these files (the store `db.DB`, the gateway action
  handler, `GetConfigTypeRef`, the JSON decoder, `webbundle.Asset`, the file server) are
  fields of a record of functions, so every theorem holds for every behaviour they may have.
* Every call made to a collaborator is appended to a call log that the embedded function
  returns next to its Go results, so that "is never invoked" is a statement about the log.
* A Go string is a sequence of bytes; it is written as a `String` whose `data` holds one
  element per byte, so `len(s)` is `s.data.length` and `s[1:]` drops one element.
-/

set_option autoImplicit false

/-! ## Errors (`internal/util`, `github.com/sorintlab/errors`) -/

/-- Modelled from the spec: the kinds of `util.APIError` (section 7, error taxonomy). The
declaration lives in `internal/util`; the two kinds the embedded code names are
`ErrBadRequest` and `ErrNotExist`. -/
inductive ErrorKind where
  | ErrBadRequest
  | ErrNotExist
  | ErrAlreadyExists
  | ErrForbidden
  | ErrInternal
  deriving DecidableEq, Repr

/-- Modelled from the spec: the detailed error codes of `internal/services/errors` that
`ResolveObjectID` attaches to its `NotExist` errors. -/
inductive DetailedError where
  | ProjectGroupDoesNotExist
  | ProjectDoesNotExist
  deriving DecidableEq, Repr

/-- A Go error value. `errorString` is an error made by a collaborator (store, lock,
decoder); `NewAPIError kind format args detailed` is
`util.NewAPIError(kind, util.WithAPIErrorMsg(format, args...), detailed...)` with the
message kept as its format and arguments; `NewAPIErrorWrap kind err` is
`util.NewAPIErrorWrap(kind, err)`; `WithStack err` is `errors.WithStack(err)` for a
non-nil `err`. -/
inductive Error where
  | errorString (msg : String)
  | NewAPIError (kind : ErrorKind) (format : String) (args : List String)
      (detailed : List DetailedError)
  | NewAPIErrorWrap (kind : ErrorKind) (err : Error)
  | WithStack (err : Error)
  deriving DecidableEq, Repr

/-- The error is itself an API error of kind `k` (the value built by `util.NewAPIError` or
`util.NewAPIErrorWrap`), not a wrapper around one. -/
def Error.isAPIError (k : ErrorKind) : Error → Bool
  | .NewAPIError kind _ _ _ => decide (kind = k)
  | .NewAPIErrorWrap kind _ => decide (kind = k)
  | _ => false

/-- Modelled from the spec: the kind under which an error is reported (section 7): the kind
of the outermost API error found by unwrapping `WithStack` layers, `none` when the chain
holds no API error (a store or lock failure, reported as internal). -/
def Error.kindOf : Error → Option ErrorKind
  | .errorString _ => none
  | .NewAPIError kind _ _ _ => some kind
  | .NewAPIErrorWrap kind _ => some kind
  | .WithStack err => err.kindOf

/-! ## Configstore types (`services/configstore/types`) -/

/-- The Go type `types.ObjectKind`, a string type. -/
abbrev ObjectKind := String

/-- Modelled from the spec: the constant `types.ObjectKindProjectGroup` (section 3,
ObjectKind `ProjectGroup`); its declaration is outside the embedded files. -/
def ObjectKindProjectGroup : ObjectKind := "projectgroup"

/-- Modelled from the spec: the constant `types.ObjectKindProject` (section 3, ObjectKind
`Project`); its declaration is outside the embedded files. -/
def ObjectKindProject : ObjectKind := "project"

/-- Modelled from the spec: a project group node (section 3, object node): `ID`, its name
and its parent. `ResolveObjectID` reads `ID` only. -/
structure ProjectGroup where
  ID : String
  Name : String
  ParentID : String
  deriving DecidableEq, Repr

/-- Modelled from the spec: a project node (section 3, object node): `ID`, its name and
its parent. `ResolveObjectID` reads `ID` only. -/
structure Project where
  ID : String
  Name : String
  ParentID : String
  deriving DecidableEq, Repr

/-! ## Configstore action handler (`internal/services/configstore/action/action.go`) -/

namespace configstore

/-- The transaction handle `*sql.Tx` the caller passes in. -/
abbrev Tx := Nat

/-- The store `*db.DB`: the two lookups `ResolveObjectID` calls. Each returns the Go pair
(node pointer, error); any of the four nil/non-nil combinations is a possible result. -/
structure DB where
  GetProjectGroup : Tx → String → Option ProjectGroup × Option Error
  GetProject : Tx → String → Option Project × Option Error

/-- A call made to the store. -/
inductive StoreCall where
  | GetProjectGroup (tx : Tx) (ref : String)
  | GetProject (tx : Tx) (ref : String)
  deriving DecidableEq, Repr

/-- The logger handed to the handler; never read by the embedded code. -/
abbrev Logger := Unit

/-- The lock factory handed to the handler; never read by the embedded code. -/
abbrev LockFactory := Unit

/-- The struct `ActionHandler`. The mutex guarding `maintenanceMode` has no state of its
own in a sequential run and is left out. -/
structure ActionHandler where
  log : Logger
  d : DB
  lf : LockFactory
  maintenanceMode : Bool

/-- The constructor `NewActionHandler`. -/
def NewActionHandler (log : Logger) (d : DB) (lf : LockFactory) : ActionHandler :=
  { log := log, d := d, lf := lf, maintenanceMode := false }

/-- What a run of `ResolveObjectID` leaves behind: the two Go results, the store calls it
made in order, and the handler the receiver points to after the call. -/
structure Resolved where
  id : String
  err : Option Error
  calls : List StoreCall
  handler : ActionHandler

/-- The method `(*ActionHandler).ResolveObjectID`. -/
def ActionHandler.ResolveObjectID (h : ActionHandler) (tx : Tx) (objectKind : ObjectKind)
    (ref : String) : Resolved :=
  if objectKind = ObjectKindProjectGroup then
    let (group, err) := h.d.GetProjectGroup tx ref
    let calls := [StoreCall.GetProjectGroup tx ref]
    match err with
    | some e => { id := "", err := some (Error.WithStack e), calls := calls, handler := h }
    | none =>
      match group with
      | none =>
        { id := ""
          err := some (Error.NewAPIError ErrorKind.ErrNotExist
            "project group with ref %q doesn't exists" [ref]
            [DetailedError.ProjectGroupDoesNotExist])
          calls := calls, handler := h }
      | some g => { id := g.ID, err := none, calls := calls, handler := h }
  else if objectKind = ObjectKindProject then
    let (project, err) := h.d.GetProject tx ref
    let calls := [StoreCall.GetProject tx ref]
    match err with
    | some e => { id := "", err := some (Error.WithStack e), calls := calls, handler := h }
    | none =>
      match project with
      | none =>
        { id := ""
          err := some (Error.NewAPIError ErrorKind.ErrNotExist
            "project with ref %q doesn't exists" [ref]
            [DetailedError.ProjectDoesNotExist])
          calls := calls, handler := h }
      | some p => { id := p.ID, err := none, calls := calls, handler := h }
  else
    { id := ""
      err := some (Error.NewAPIError ErrorKind.ErrBadRequest
        "unknown object kind %q" [objectKind] [])
      calls := [], handler := h }

/-- The returned error is an API error of kind `k` built by the call itself. -/
def Resolved.failsWith (r : Resolved) (k : ErrorKind) : Bool :=
  match r.err with
  | some e => e.isAPIError k
  | none => false

end configstore

/-! ## Gateway API types -/

namespace gateway

/-- The request context `r.Context()`, handed on to every action. -/
abbrev Context := Nat

/-- The Go type `url.Values`, a map from a key to its list of values, as the list of its
entries. -/
abbrev Values := List (String × List String)

/-- The comma-ok form `_, ok := m[key]` on a `url.Values` map: whether the key is present,
whatever is stored under it. -/
def Values.hasKey (m : Values) (key : String) : Bool :=
  m.any (fun kv => decide (kv.1 = key))

/-- The parts of `*http.Request` the secret handlers read: the context, the parsed query
`r.URL.Query()`, the route variables `mux.Vars(r)` and the body. -/
structure Request where
  ctx : Context
  Query : Values
  Vars : List (String × String)
  Body : String

/-- The lookup `vars[key]` on the route variables: the empty string for a missing key. -/
def lookupVar (vars : List (String × String)) (key : String) : String :=
  match vars.find? (fun kv => decide (kv.1 = key)) with
  | some kv => kv.2
  | none => ""

/-- Modelled from the spec: the record `csapitypes.Secret` the gateway action returns
(section 3, Secret, and section 6, `ParentPath`). The Go field `Type` is written
`SecretType` here and in the request records below. -/
structure Secret where
  ID : String
  Name : String
  ParentType : ObjectKind
  ParentID : String
  SecretType : String
  Data : List (String × String)
  SecretProviderID : String
  Path : String
  ParentPath : String
  deriving DecidableEq, Repr

/-- The struct `gwapitypes.SecretResponse`, with the three fields `createSecretResponse`
fills. -/
structure SecretResponse where
  ID : String
  Name : String
  ParentPath : String
  deriving DecidableEq, Repr

/-- Modelled from the spec: the JSON payload `gwapitypes.CreateSecretRequest` (section 6,
create secret), with the fields `CreateSecretHandler.do` reads. -/
structure CreateSecretRequestBody where
  Name : String
  SecretType : String
  Data : List (String × String)
  SecretProviderID : String
  Path : String
  deriving DecidableEq, Repr

/-- Modelled from the spec: the JSON payload `gwapitypes.UpdateSecretRequest` (section 6,
update secret), with the fields `UpdateSecretHandler.do` reads. -/
structure UpdateSecretRequestBody where
  Name : String
  SecretType : String
  Data : List (String × String)
  SecretProviderID : String
  Path : String
  deriving DecidableEq, Repr

/-- The struct `action.GetSecretsRequest` as `SecretsHandler.do` fills it. -/
structure GetSecretsRequest where
  ParentType : ObjectKind
  ParentRef : String
  Tree : Bool
  RemoveOverridden : Bool
  deriving DecidableEq, Repr

/-- The struct `action.CreateSecretRequest` as `CreateSecretHandler.do` fills it. -/
structure CreateSecretRequest where
  Name : String
  ParentType : ObjectKind
  ParentRef : String
  SecretType : String
  Data : List (String × String)
  SecretProviderID : String
  Path : String
  deriving DecidableEq, Repr

/-- The struct `action.UpdateSecretRequest` as `UpdateSecretHandler.do` fills it. -/
structure UpdateSecretRequest where
  SecretName : String
  Name : String
  ParentType : ObjectKind
  ParentRef : String
  SecretType : String
  Data : List (String × String)
  SecretProviderID : String
  Path : String
  deriving DecidableEq, Repr

/-- The gateway `action.ActionHandler`, by the three methods the handlers call. `GetSecrets`
returns the Go pair (slice, error); the slice holds pointers to decoded records, each
written as the record it points to, and a nil slice is the empty list (`len` and `range`
treat both alike). `CreateSecret` and `UpdateSecret` return either the record or the
error. -/
structure ActionHandler where
  GetSecrets : Context → GetSecretsRequest → List Secret × Option Error
  CreateSecret : Context → CreateSecretRequest → Except Error Secret
  UpdateSecret : Context → UpdateSecretRequest → Except Error Secret

/-- A call made to the gateway action handler. -/
inductive ActionCall where
  | GetSecrets (ctx : Context) (areq : GetSecretsRequest)
  | CreateSecret (ctx : Context) (areq : CreateSecretRequest)
  | UpdateSecret (ctx : Context) (areq : UpdateSecretRequest)
  deriving DecidableEq, Repr

/-- The helpers of package `api` and of `encoding/json` the handlers call:
`GetConfigTypeRef(r)` with its Go triple (parent type, parent ref, error), and
`json.NewDecoder(r.Body).Decode(&req)` for each of the two payload types, giving the
decoded payload or the decoder's error. -/
structure Helpers where
  GetConfigTypeRef : Request → ObjectKind × String × Option Error
  DecodeCreate : String → Except Error CreateSecretRequestBody
  DecodeUpdate : String → Except Error UpdateSecretRequestBody

/-- What a run of a handler's `do` leaves behind: the two Go results and the action calls
it made, in order. -/
structure Done (α : Type) where
  res : α
  err : Option Error
  calls : List ActionCall

/-! ## Secret handlers (`internal/services/gateway/api/secret.go`) -/

/-- The function `createSecretResponse`. -/
def createSecretResponse (s : Secret) : SecretResponse :=
  { ID := s.ID, Name := s.Name, ParentPath := s.ParentPath }

/-- The loop `for i, s := range cssecrets { secrets[i] = createSecretResponse(s) }`, from
index `i` on: each step stores a pointer to the response at index `i` of `secrets`. -/
def fillSecrets : Nat → List Secret → List (Option SecretResponse) →
    List (Option SecretResponse)
  | _, [], secrets => secrets
  | i, s :: rest, secrets => fillSecrets (i + 1) rest (secrets.set i (some (createSecretResponse s)))

/-- The struct `SecretsHandler`; `es` holds the package helpers it calls. -/
structure SecretsHandler where
  ah : ActionHandler
  es : Helpers

/-- The method `(*SecretsHandler).do`. The result slice is `none` when nil, and its
elements are pointers, `none` when nil (as `make` leaves them before the loop). -/
def SecretsHandler.do (h : SecretsHandler) (r : Request) :
    Done (Option (List (Option SecretResponse))) :=
  let ctx := r.ctx
  let query := r.Query
  let tree := Values.hasKey query "tree"
  let removeoverridden := Values.hasKey query "removeoverridden"
  let (parentType, parentRef, err) := h.es.GetConfigTypeRef r
  match err with
  | some e => { res := none, err := some (Error.WithStack e), calls := [] }
  | none =>
    let areq : GetSecretsRequest :=
      { ParentType := parentType, ParentRef := parentRef, Tree := tree,
        RemoveOverridden := removeoverridden }
    let (cssecrets, err) := h.ah.GetSecrets ctx areq
    let calls := [ActionCall.GetSecrets ctx areq]
    match err with
    | some e => { res := none, err := some (Error.WithStack e), calls := calls }
    | none =>
      let secrets := List.replicate cssecrets.length (none : Option SecretResponse)
      let secrets := fillSecrets 0 cssecrets secrets
      { res := some secrets, err := none, calls := calls }

/-- The struct `CreateSecretHandler`; `es` holds the package helpers it calls. -/
structure CreateSecretHandler where
  ah : ActionHandler
  es : Helpers

/-- The method `(*CreateSecretHandler).do`. -/
def CreateSecretHandler.do (h : CreateSecretHandler) (r : Request) :
    Done (Option SecretResponse) :=
  let ctx := r.ctx
  let (parentType, parentRef, err) := h.es.GetConfigTypeRef r
  match err with
  | some e => { res := none, err := some (Error.WithStack e), calls := [] }
  | none =>
    match h.es.DecodeCreate r.Body with
    | .error e =>
      { res := none, err := some (Error.NewAPIErrorWrap ErrorKind.ErrBadRequest e), calls := [] }
    | .ok req =>
      let areq : CreateSecretRequest :=
        { Name := req.Name, ParentType := parentType, ParentRef := parentRef,
          SecretType := req.SecretType, Data := req.Data,
          SecretProviderID := req.SecretProviderID, Path := req.Path }
      let calls := [ActionCall.CreateSecret ctx areq]
      match h.ah.CreateSecret ctx areq with
      | .error e => { res := none, err := some (Error.WithStack e), calls := calls }
      | .ok cssecret =>
        { res := some (createSecretResponse cssecret), err := none, calls := calls }

/-- The struct `UpdateSecretHandler`; `es` holds the package helpers it calls. -/
structure UpdateSecretHandler where
  ah : ActionHandler
  es : Helpers

/-- The method `(*UpdateSecretHandler).do`. -/
def UpdateSecretHandler.do (h : UpdateSecretHandler) (r : Request) :
    Done (Option SecretResponse) :=
  let ctx := r.ctx
  let vars := r.Vars
  let secretName := lookupVar vars "secretname"
  let (parentType, parentRef, err) := h.es.GetConfigTypeRef r
  match err with
  | some e => { res := none, err := some (Error.WithStack e), calls := [] }
  | none =>
    match h.es.DecodeUpdate r.Body with
    | .error e =>
      { res := none, err := some (Error.NewAPIErrorWrap ErrorKind.ErrBadRequest e), calls := [] }
    | .ok req =>
      let areq : UpdateSecretRequest :=
        { SecretName := secretName, Name := req.Name, ParentType := parentType,
          ParentRef := parentRef, SecretType := req.SecretType, Data := req.Data,
          SecretProviderID := req.SecretProviderID, Path := req.Path }
      let calls := [ActionCall.UpdateSecret ctx areq]
      match h.ah.UpdateSecret ctx areq with
      | .error e => { res := none, err := some (Error.WithStack e), calls := calls }
      | .ok cssecret =>
        { res := some (createSecretResponse cssecret), err := none, calls := calls }

end gateway

/-! ## Web bundle handler (`internal/services/gateway/handlers/webbundle.go`) -/

namespace handlers

/-- The Go slice expression `s[low:]` on a string: the bytes from index `low` on, and a
run-time panic (`none`) unless `low <= len(s)`. -/
def sliceFrom (s : String) (low : Nat) : Option String :=
  if low ≤ s.data.length then some ⟨s.data.drop low⟩ else none

/-- The function `strings.HasPrefix`. -/
def HasPrefix (s pre : String) : Bool :=
  pre.data.isPrefixOf s.data

/-- The constant `http.StatusNotFound`. -/
def StatusNotFound : Nat := 404

/-- The generated package `webbundle`: `Asset(name)` with its Go pair (bytes, error). -/
structure WebBundle where
  Asset : String → List Nat × Option Error

/-- What the handler does to the response writer and the file server, in order:
`w.Header().Set(key, value)`, `fileServerHandler.ServeHTTP(w, r)` with the value
`r.URL.Path` has at that call, and `http.Error(w, msg, code)`. -/
inductive Effect where
  | HeaderSet (key value : String)
  | FileServerServeHTTP (path : String)
  | HTTPError (msg : String) (code : Nat)
  deriving DecidableEq, Repr

/-- The handler function `NewWebBundleHandlerFunc` returns, run on a request whose
`r.URL.Path` is `path`: the effects it performs, or `none` when it panics. -/
def NewWebBundleHandlerFunc (wb : WebBundle) (path : String) : Option (List Effect) :=
  let effects := [Effect.HeaderSet "Cache-Control" "no-cache"]
  match sliceFrom path 1 with
  | none => none
  | some name =>
    match (wb.Asset name).2 with
    | none => some (effects ++ [Effect.FileServerServeHTTP path])
    | some _ =>
      if HasPrefix path "/api/" then
        some (effects ++ [Effect.HTTPError "" StatusNotFound])
      else
        let path := "/"
        some (effects ++ [Effect.FileServerServeHTTP path])

end handlers

/-! ## Example collaborators -/

namespace configstore

/-- A store with one project group, reachable by the path `org/acme` and by its ID `pg-1`,
and one project, reachable by the path `org/acme/web` and by its ID `p-7`; the ref
`broken` makes either lookup fail and still hand back a node. -/
def exampleDB : DB where
  GetProjectGroup := fun _ ref =>
    if ref = "org/acme" ∨ ref = "pg-1" then
      (some { ID := "pg-1", Name := "acme", ParentID := "root" }, none)
    else if ref = "broken" then
      (some { ID := "pg-0", Name := "stale", ParentID := "" },
        some (Error.errorString "connection reset"))
    else (none, none)
  GetProject := fun _ ref =>
    if ref = "org/acme/web" ∨ ref = "p-7" then
      (some { ID := "p-7", Name := "web", ParentID := "pg-1" }, none)
    else if ref = "broken" then
      (some { ID := "p-0", Name := "stale", ParentID := "" },
        some (Error.errorString "connection reset"))
    else (none, none)

/-- A handler over `exampleDB` with the given maintenance mode. -/
def exampleHandler (maintenanceMode : Bool) : ActionHandler :=
  { log := (), d := exampleDB, lf := (), maintenanceMode := maintenanceMode }

end configstore


namespace gateway

/-- A record as the gateway action returns it, with the given ID, name and parent path. -/
def exampleSecret (id name parentPath : String) : Secret :=
  { ID := id, Name := name, ParentType := ObjectKindProjectGroup, ParentID := "pg-1",
    SecretType := "internal", Data := [("token", "s3cr3t")], SecretProviderID := "",
    Path := "", ParentPath := parentPath }

/-- The list a tree query without shadowing returns when the name `registry` is defined
at two levels: both entries, the ancestor's first. -/
def exampleSecrets : List Secret :=
  [exampleSecret "s-1" "registry" "org/acme", exampleSecret "s-2" "registry" "org/acme/web",
    exampleSecret "s-3" "deploy" "org/acme/web"]

/-- An action handler that answers every secrets query with `exampleSecrets` and accepts
every create and update. -/
def exampleActions : ActionHandler where
  GetSecrets := fun _ _ => (exampleSecrets, none)
  CreateSecret := fun _ areq => .ok (exampleSecret "s-9" areq.Name areq.ParentRef)
  UpdateSecret := fun _ areq => .ok (exampleSecret "s-9" areq.Name areq.ParentRef)

/-- Helpers that always find the parent `projectgroup` / `org/acme` and whose decoders
accept one body only. -/
def exampleHelpers : Helpers where
  GetConfigTypeRef := fun _ => (ObjectKindProjectGroup, "org/acme", none)
  DecodeCreate := fun body =>
    if body = "\x7b\"name\":\"deploy\"\x7d" then
      .ok { Name := "deploy", SecretType := "", Data := [], SecretProviderID := "", Path := "" }
    else .error (Error.errorString "unexpected EOF")
  DecodeUpdate := fun body =>
    if body = "\x7b\"name\":\"deploy\"\x7d" then
      .ok { Name := "deploy", SecretType := "", Data := [], SecretProviderID := "", Path := "" }
    else .error (Error.errorString "unexpected EOF")

/-- A request with the given parsed query and body. -/
def exampleRequest (query : Values) (body : String) : Request :=
  { ctx := 0, Query := query, Vars := [("secretname", "deploy")], Body := body }

end gateway

namespace handlers

end handlers
/-! ## Theorems: `ActionHandler.ResolveObjectID` -/

namespace configstore

theorem objectKinds_distinct : ObjectKindProjectGroup ≠ ObjectKindProject := by decide

/-- The run for the kind `ObjectKindProjectGroup`, by the result of the store lookup. -/
theorem resolve_projectGroup (h : ActionHandler) (tx : Tx) (ref : String) :
    h.ResolveObjectID tx ObjectKindProjectGroup ref =
      match h.d.GetProjectGroup tx ref with
      | (_, some e) =>
        { id := "", err := some (Error.WithStack e),
          calls := [StoreCall.GetProjectGroup tx ref], handler := h }
      | (none, none) =>
        { id := ""
          err := some (Error.NewAPIError ErrorKind.ErrNotExist
            "project group with ref %q doesn't exists" [ref]
            [DetailedError.ProjectGroupDoesNotExist])
          calls := [StoreCall.GetProjectGroup tx ref], handler := h }
      | (some g, none) =>
        { id := g.ID, err := none, calls := [StoreCall.GetProjectGroup tx ref], handler := h } := by
  unfold ActionHandler.ResolveObjectID
  rcases hg : h.d.GetProjectGroup tx ref with ⟨g, e⟩
  cases g <;> cases e <;> simp

/-- The run for the kind `ObjectKindProject`, by the result of the store lookup. -/
theorem resolve_project (h : ActionHandler) (tx : Tx) (ref : String) :
    h.ResolveObjectID tx ObjectKindProject ref =
      match h.d.GetProject tx ref with
      | (_, some e) =>
        { id := "", err := some (Error.WithStack e),
          calls := [StoreCall.GetProject tx ref], handler := h }
      | (none, none) =>
        { id := ""
          err := some (Error.NewAPIError ErrorKind.ErrNotExist
            "project with ref %q doesn't exists" [ref]
            [DetailedError.ProjectDoesNotExist])
          calls := [StoreCall.GetProject tx ref], handler := h }
      | (some p, none) =>
        { id := p.ID, err := none, calls := [StoreCall.GetProject tx ref], handler := h } := by
  unfold ActionHandler.ResolveObjectID
  rw [if_neg (Ne.symm objectKinds_distinct)]
  rcases hg : h.d.GetProject tx ref with ⟨g, e⟩
  cases g <;> cases e <;> simp

end configstore

namespace configstore

end configstore

namespace configstore

/-- C3: for either recognised kind and any two refs `r1`, `r2` for which the store lookup
of that kind returns the same node `n` with no error, `ResolveObjectID` returns `n.ID`
with no error for `r1` and for `r2` alike. -/
theorem ResolveObjectID_scheme_agnostic (h : ActionHandler) (tx : Tx) (r1 r2 : String) :
    (∀ n : ProjectGroup,
      h.d.GetProjectGroup tx r1 = (some n, none) →
      h.d.GetProjectGroup tx r2 = (some n, none) →
        (h.ResolveObjectID tx ObjectKindProjectGroup r1).id = n.ID ∧
        (h.ResolveObjectID tx ObjectKindProjectGroup r1).err = none ∧
        (h.ResolveObjectID tx ObjectKindProjectGroup r2).id = n.ID ∧
        (h.ResolveObjectID tx ObjectKindProjectGroup r2).err = none) ∧
    (∀ n : Project,
      h.d.GetProject tx r1 = (some n, none) →
      h.d.GetProject tx r2 = (some n, none) →
        (h.ResolveObjectID tx ObjectKindProject r1).id = n.ID ∧
        (h.ResolveObjectID tx ObjectKindProject r1).err = none ∧
        (h.ResolveObjectID tx ObjectKindProject r2).id = n.ID ∧
        (h.ResolveObjectID tx ObjectKindProject r2).err = none) := by
  refine ⟨fun n e1 e2 => ?_, fun n e1 e2 => ?_⟩
  · rw [resolve_projectGroup, resolve_projectGroup, e1, e2]
    exact ⟨rfl, rfl, rfl, rfl⟩
  · rw [resolve_project, resolve_project, e1, e2]
    exact ⟨rfl, rfl, rfl, rfl⟩

/-- Witness for C3 over `exampleDB`: the path `org/acme` and the ID `pg-1` reach the same
project group, both resolve to `pg-1`, and that is not the path that was passed in. -/
theorem ResolveObjectID_scheme_agnostic_witness :
    (("pg-1" : String) ≠ "org/acme") ∧
    ((exampleHandler false).ResolveObjectID 0 ObjectKindProjectGroup "org/acme").id = "pg-1" ∧
    ((exampleHandler false).ResolveObjectID 0 ObjectKindProjectGroup "org/acme").err = none ∧
    ((exampleHandler false).ResolveObjectID 0 ObjectKindProjectGroup "pg-1").id = "pg-1" ∧
    ((exampleHandler false).ResolveObjectID 0 ObjectKindProjectGroup "pg-1").err = none :=
  ⟨by decide,
    (ResolveObjectID_scheme_agnostic (exampleHandler false) 0 "org/acme" "pg-1").1
      { ID := "pg-1", Name := "acme", ParentID := "root" } (by decide) (by decide)⟩

/-- C4: for either recognised kind, when the store lookup returns an error `e`, with or
without a node next to it, `ResolveObjectID` returns the empty ID and
`errors.WithStack(e)`: not a success, not an API error of kind NotExist or BadRequest made
in place of `e`, and reported under the kind of `e`. -/
theorem ResolveObjectID_store_error (h : ActionHandler) (tx : Tx) (ref : String) (e : Error) :
    (∀ g : Option ProjectGroup, h.d.GetProjectGroup tx ref = (g, some e) →
      (h.ResolveObjectID tx ObjectKindProjectGroup ref).id = "" ∧
      (h.ResolveObjectID tx ObjectKindProjectGroup ref).err = some (Error.WithStack e) ∧
      (h.ResolveObjectID tx ObjectKindProjectGroup ref).failsWith ErrorKind.ErrNotExist
        = false ∧
      (h.ResolveObjectID tx ObjectKindProjectGroup ref).failsWith ErrorKind.ErrBadRequest
        = false ∧
      (Error.WithStack e).kindOf = e.kindOf) ∧
    (∀ p : Option Project, h.d.GetProject tx ref = (p, some e) →
      (h.ResolveObjectID tx ObjectKindProject ref).id = "" ∧
      (h.ResolveObjectID tx ObjectKindProject ref).err = some (Error.WithStack e) ∧
      (h.ResolveObjectID tx ObjectKindProject ref).failsWith ErrorKind.ErrNotExist = false ∧
      (h.ResolveObjectID tx ObjectKindProject ref).failsWith ErrorKind.ErrBadRequest = false ∧
      (Error.WithStack e).kindOf = e.kindOf) := by
  refine ⟨fun g hg => ?_, fun p hp => ?_⟩
  · rw [resolve_projectGroup, hg]
    cases g <;> simp [Resolved.failsWith, Error.isAPIError, Error.kindOf]
  · rw [resolve_project, hp]
    cases p <;> simp [Resolved.failsWith, Error.isAPIError, Error.kindOf]

/-- Witness for C4 over `exampleDB`: for the ref `broken` the project lookup returns a
node together with an error, and the error is what comes back, wrapped. -/
theorem ResolveObjectID_store_error_witness :
    exampleDB.GetProject 0 "broken" =
      (some { ID := "p-0", Name := "stale", ParentID := "" },
        some (Error.errorString "connection reset")) ∧
    ((exampleHandler false).ResolveObjectID 0 ObjectKindProject "broken").id = "" ∧
    ((exampleHandler false).ResolveObjectID 0 ObjectKindProject "broken").err =
      some (Error.WithStack (Error.errorString "connection reset")) :=
  have w := (ResolveObjectID_store_error (exampleHandler false) 0 "broken"
    (Error.errorString "connection reset")).2
      (some { ID := "p-0", Name := "stale", ParentID := "" }) (by decide)
  ⟨by decide, w.1, w.2.1⟩

/-- C5: for every kind, ref and store, `ResolveObjectID` returns the same ID, the same
error and makes the same store calls whether the handler's `maintenanceMode` is true or
false; the handler after the call is the handler before it, `maintenanceMode` included;
and `NewActionHandler` starts `maintenanceMode` at false. -/
theorem ResolveObjectID_maintenance_independent (h : ActionHandler) (tx : Tx)
    (objectKind : ObjectKind) (ref : String) :
    (({ h with maintenanceMode := true }.ResolveObjectID tx objectKind ref).id =
      ({ h with maintenanceMode := false }.ResolveObjectID tx objectKind ref).id) ∧
    (({ h with maintenanceMode := true }.ResolveObjectID tx objectKind ref).err =
      ({ h with maintenanceMode := false }.ResolveObjectID tx objectKind ref).err) ∧
    (({ h with maintenanceMode := true }.ResolveObjectID tx objectKind ref).calls =
      ({ h with maintenanceMode := false }.ResolveObjectID tx objectKind ref).calls) ∧
    (h.ResolveObjectID tx objectKind ref).handler = h ∧
    (h.ResolveObjectID tx objectKind ref).handler.maintenanceMode = h.maintenanceMode ∧
    (∀ (log : Logger) (d : DB) (lf : LockFactory),
      (NewActionHandler log d lf).maintenanceMode = false) := by
  have hh : (h.ResolveObjectID tx objectKind ref).handler = h := by
    unfold ActionHandler.ResolveObjectID
    split
    · rcases h.d.GetProjectGroup tx ref with ⟨g, e⟩
      cases g <;> cases e <;> rfl
    · split
      · rcases h.d.GetProject tx ref with ⟨g, e⟩
        cases g <;> cases e <;> rfl
      · rfl
  refine ⟨?_, ?_, ?_, hh, by rw [hh], fun _ _ _ => rfl⟩
  all_goals
    unfold ActionHandler.ResolveObjectID
    split
    · rcases h.d.GetProjectGroup tx ref with ⟨g, e⟩
      cases g <;> cases e <;> rfl
    · split
      · rcases h.d.GetProject tx ref with ⟨g, e⟩
        cases g <;> cases e <;> rfl
      · rfl

end configstore

/-! ## Theorems: secret handlers -/

namespace gateway

/-- The loop started at the index where the filled part `done` ends overwrites the
remaining `tail` with the responses of the remaining records, in order. -/
theorem fillSecrets_append (rest : List Secret) :
    ∀ (done tail : List (Option SecretResponse)), tail.length = rest.length →
      fillSecrets done.length rest (done ++ tail) =
        done ++ rest.map (fun s => some (createSecretResponse s)) := by
  induction rest with
  | nil =>
    intro done tail ht
    have : tail = [] := List.length_eq_zero.mp ht
    simp [fillSecrets, this]
  | cons s rest ih =>
    intro done tail ht
    cases tail with
    | nil => simp at ht
    | cons t tail =>
      have hl : tail.length = rest.length := by simpa using ht
      have hset : (done ++ t :: tail).set done.length (some (createSecretResponse s)) =
          (done ++ [some (createSecretResponse s)]) ++ tail := by
        simp [List.set_append]
      have hlen : (done ++ [some (createSecretResponse s)]).length = done.length + 1 := by simp
      rw [fillSecrets, hset, ← hlen, ih _ tail hl]
      simp

/-- The loop of `SecretsHandler.do` on the slice `make` returns is the list of the
responses of the records. -/
theorem fillSecrets_replicate (cssecrets : List Secret) :
    fillSecrets 0 cssecrets (List.replicate cssecrets.length none) =
      cssecrets.map (fun s => some (createSecretResponse s)) := by
  have h := fillSecrets_append cssecrets [] (List.replicate cssecrets.length none) (by simp)
  simpa using h

/-- Key presence in a `url.Values` map depends on the list of keys alone. -/
theorem hasKey_eq_of_keys (q1 q2 : Values) (key : String)
    (hk : q1.map Prod.fst = q2.map Prod.fst) :
    Values.hasKey q1 key = Values.hasKey q2 key := by
  have e : ∀ q : Values, Values.hasKey q key = (q.map Prod.fst).any (fun k => decide (k = key)) := by
    intro q
    induction q with
    | nil => rfl
    | cons kv q ih =>
      have ih2 : List.any q (fun kv => decide (kv.1 = key)) =
          (q.map Prod.fst).any (fun k => decide (k = key)) := ih
      simp [Values.hasKey, ih2]
  rw [e q1, e q2, hk]

end gateway

namespace gateway

/-- The run of `SecretsHandler.do` once `GetConfigTypeRef` has succeeded and the action has
returned the list `L` with no error. -/
theorem SecretsHandler_do_ok (h : SecretsHandler) (r : Request) (parentType : ObjectKind)
    (parentRef : String) (L : List Secret)
    (hr : h.es.GetConfigTypeRef r = (parentType, parentRef, none))
    (hs : h.ah.GetSecrets r.ctx
      { ParentType := parentType, ParentRef := parentRef,
        Tree := Values.hasKey r.Query "tree",
        RemoveOverridden := Values.hasKey r.Query "removeoverridden" } = (L, none)) :
    (h.do r).res = some (L.map (fun s => some (createSecretResponse s))) ∧
    (h.do r).err = none := by
  unfold SecretsHandler.do
  simp [hr, hs, fillSecrets_replicate]

/-- C6: when `GetConfigTypeRef` succeeds and the action `GetSecrets` returns the list `L`
with no error, `SecretsHandler.do` returns, with no error, a non-nil slice of the length
of `L` whose element at every index `i` is a non-nil response carrying the `ID`, `Name`
and `ParentPath` of `L[i]`; for an empty `L` the slice is empty and non-nil. -/
theorem SecretsHandler_do_maps_every_secret (h : SecretsHandler) (r : Request)
    (parentType : ObjectKind) (parentRef : String) (L : List Secret)
    (hr : h.es.GetConfigTypeRef r = (parentType, parentRef, none))
    (hs : h.ah.GetSecrets r.ctx
      { ParentType := parentType, ParentRef := parentRef,
        Tree := Values.hasKey r.Query "tree",
        RemoveOverridden := Values.hasKey r.Query "removeoverridden" } = (L, none)) :
    (h.do r).err = none ∧
    ∃ secrets : List (Option SecretResponse),
      (h.do r).res = some secrets ∧
      secrets.length = L.length ∧
      (∀ (i : Nat) (s : Secret), L[i]? = some s →
        ∃ resp : SecretResponse, secrets[i]? = some (some resp) ∧
          resp.ID = s.ID ∧ resp.Name = s.Name ∧ resp.ParentPath = s.ParentPath) ∧
      (L = [] → secrets = []) := by
  obtain ⟨hres, herr⟩ := SecretsHandler_do_ok h r parentType parentRef L hr hs
  refine ⟨herr, _, hres, by simp, ?_, ?_⟩
  · intro i s hi
    refine ⟨createSecretResponse s, ?_, rfl, rfl, rfl⟩
    simp [List.getElem?_map, hi]
  · intro hL
    simp [hL]

/-- Witness for C6: the three records of `exampleSecrets`, two of them with the same name,
come back as three responses in the same order. -/
theorem SecretsHandler_do_maps_every_secret_witness :
    (SecretsHandler.do ⟨exampleActions, exampleHelpers⟩
      (exampleRequest [("tree", [""])] "")).err = none ∧
    ∃ secrets : List (Option SecretResponse),
      (SecretsHandler.do ⟨exampleActions, exampleHelpers⟩
        (exampleRequest [("tree", [""])] "")).res = some secrets ∧
      secrets.length = exampleSecrets.length ∧
      (∀ (i : Nat) (s : Secret), exampleSecrets[i]? = some s →
        ∃ resp : SecretResponse, secrets[i]? = some (some resp) ∧
          resp.ID = s.ID ∧ resp.Name = s.Name ∧ resp.ParentPath = s.ParentPath) ∧
      (exampleSecrets = [] → secrets = []) :=
  SecretsHandler_do_maps_every_secret ⟨exampleActions, exampleHelpers⟩
    (exampleRequest [("tree", [""])] "") ObjectKindProjectGroup "org/acme" exampleSecrets
    rfl rfl

/-- C7: when `GetConfigTypeRef` succeeds and the body does not decode, with decoder error
`e`, `CreateSecretHandler.do` and `UpdateSecretHandler.do` return a nil response and the
BadRequest API error wrapping `e`, and make no action call. -/
theorem do_malformed_payload_badRequest (ah : ActionHandler) (es : Helpers) (r : Request)
    (parentType : ObjectKind) (parentRef : String) (e : Error)
    (hr : es.GetConfigTypeRef r = (parentType, parentRef, none)) :
    (es.DecodeCreate r.Body = .error e →
      (CreateSecretHandler.do ⟨ah, es⟩ r).res = none ∧
      (CreateSecretHandler.do ⟨ah, es⟩ r).err =
        some (Error.NewAPIErrorWrap ErrorKind.ErrBadRequest e) ∧
      (CreateSecretHandler.do ⟨ah, es⟩ r).calls = []) ∧
    (es.DecodeUpdate r.Body = .error e →
      (UpdateSecretHandler.do ⟨ah, es⟩ r).res = none ∧
      (UpdateSecretHandler.do ⟨ah, es⟩ r).err =
        some (Error.NewAPIErrorWrap ErrorKind.ErrBadRequest e) ∧
      (UpdateSecretHandler.do ⟨ah, es⟩ r).calls = []) := by
  constructor
  · intro hd
    unfold CreateSecretHandler.do
    simp [hr, hd]
  · intro hd
    unfold UpdateSecretHandler.do
    simp [hr, hd]

/-- Witness for C7: the truncated body `{"name":` is rejected by both handlers with no
action call. -/
theorem do_malformed_payload_badRequest_witness :
    ((CreateSecretHandler.do ⟨exampleActions, exampleHelpers⟩
        (exampleRequest [] "\x7b\"name\":")).res = none ∧
      (CreateSecretHandler.do ⟨exampleActions, exampleHelpers⟩
        (exampleRequest [] "\x7b\"name\":")).err =
        some (Error.NewAPIErrorWrap ErrorKind.ErrBadRequest
          (Error.errorString "unexpected EOF")) ∧
      (CreateSecretHandler.do ⟨exampleActions, exampleHelpers⟩
        (exampleRequest [] "\x7b\"name\":")).calls = []) ∧
    ((UpdateSecretHandler.do ⟨exampleActions, exampleHelpers⟩
        (exampleRequest [] "\x7b\"name\":")).res = none ∧
      (UpdateSecretHandler.do ⟨exampleActions, exampleHelpers⟩
        (exampleRequest [] "\x7b\"name\":")).err =
        some (Error.NewAPIErrorWrap ErrorKind.ErrBadRequest
          (Error.errorString "unexpected EOF")) ∧
      (UpdateSecretHandler.do ⟨exampleActions, exampleHelpers⟩
        (exampleRequest [] "\x7b\"name\":")).calls = []) :=
  have w := do_malformed_payload_badRequest exampleActions exampleHelpers
    (exampleRequest [] "\x7b\"name\":") ObjectKindProjectGroup "org/acme"
    (Error.errorString "unexpected EOF") rfl
  ⟨w.1 rfl, w.2 rfl⟩

end gateway

namespace gateway

end gateway

/-! ## Theorems: web bundle handler -/

namespace handlers

/-- C10 (evaluation at the failing input): on a request whose path is the empty string the
slice expression `r.URL.Path[1:]` is out of bounds, so the handler panics and performs no
routing, for every bundle. -/
theorem NewWebBundleHandlerFunc_empty_path_panics (wb : WebBundle) :
    sliceFrom "" 1 = none ∧ NewWebBundleHandlerFunc wb "" = none := by
  constructor <;> rfl

end handlers
